import Mathlib

/-!
Verification development for the deepstate map data pipeline script
(`script.py`): a geometry normalization and merge pipeline together with an
incremental CSV aggregation protocol.  The definitions below are a shallow
embedding of the script's functions; geometry coordinates are modelled as
exact rationals, Python exceptions as `Option`, and the file system touched
by the aggregation engine as an explicit state value.
-/

namespace Script

/-! ## Calendar dates (`datetime.date`) -/

/-- A calendar date as produced by `datetime.strptime(date_str, "%Y%m%d").date()`. -/
structure Date where
  year : Nat
  month : Nat
  day : Nat
deriving DecidableEq

/-- Number of days in a month of the (proleptic Gregorian) calendar used by
`datetime`. -/
def daysInMonth (y m : Nat) : Nat :=
  if m = 2 then (if y % 4 = 0 ∧ (y % 100 ≠ 0 ∨ y % 400 = 0) then 29 else 28)
  else if m = 4 ∨ m = 6 ∨ m = 9 ∨ m = 11 then 30 else 31

/-- Validity check performed by the `datetime.date` constructor
(`MINYEAR = 1`; month 1..12; day 1..days-in-month).  A failing check raises
`ValueError` in Python, modelled by `none`. -/
def mkValidDate (y m d : Nat) : Option Date :=
  if 1 ≤ y ∧ 1 ≤ m ∧ m ≤ 12 ∧ 1 ≤ d ∧ d ≤ daysInMonth y m then some ⟨y, m, d⟩ else none

/-- The proposition that a `Date` value is a valid `datetime.date`. -/
def ValidDate (dt : Date) : Prop :=
  1 ≤ dt.year ∧ 1 ≤ dt.month ∧ dt.month ≤ 12 ∧ 1 ≤ dt.day ∧ dt.day ≤ daysInMonth dt.year dt.month

/-! ## `datetime.strptime(_, "%Y%m%d")`

CPython's `_strptime` compiles the format `"%Y%m%d"` to the regular
expression `(\d\d\d\d)(1[0-2]|0[1-9]|[1-9])(3[01]|[12]\d|0[1-9]|[1-9])`,
requires it to consume the whole string, and then builds a `datetime.date`
(which validates the day against the month).  The month and day groups
accept one- or two-digit numbers, with two-digit forms preferred by
backtracking. -/

/-- Value of a decimal digit character, `none` for a non-digit. -/
def digitVal (c : Char) : Option Nat :=
  if c.isDigit then some (c.toNat - 48) else none

/-- The four-digit year group `\d\d\d\d` of the `%Y` directive. -/
def year4 (a b c d : Char) : Option Nat := do
  let x ← digitVal a
  let y ← digitVal b
  let z ← digitVal c
  let w ← digitVal d
  pure (1000 * x + 100 * y + 10 * z + w)

/-- The two-digit month alternatives `1[0-2]|0[1-9]` of `%m` (values 1..12). -/
def monthTok2 (a b : Char) : Option Nat := do
  let x ← digitVal a
  let y ← digitVal b
  let v := 10 * x + y
  if 1 ≤ v ∧ v ≤ 12 then pure v else none

/-- The two-digit day alternatives `3[01]|[12]\d|0[1-9]` of `%d` (values 1..31). -/
def dayTok2 (a b : Char) : Option Nat := do
  let x ← digitVal a
  let y ← digitVal b
  let v := 10 * x + y
  if 1 ≤ v ∧ v ≤ 31 then pure v else none

/-- The one-digit alternative `[1-9]` shared by `%m` and `%d`. -/
def tok1 (a : Char) : Option Nat := do
  let x ← digitVal a
  if 1 ≤ x then pure x else none

/-- `datetime.strptime(s, "%Y%m%d").date()`, with `ValueError` as `none`.
The three arms are the only string lengths (8, 7, 6) the compiled regex can
consume entirely; in the length-7 arm the regex backtracker prefers a
two-digit month over a two-digit day. -/
def strptimeYMD : List Char → Option Date
  | [y1, y2, y3, y4, a, b, c, d] => do
      let y ← year4 y1 y2 y3 y4
      let m ← monthTok2 a b
      let dd ← dayTok2 c d
      mkValidDate y m dd
  | [y1, y2, y3, y4, a, b, c] => do
      let y ← year4 y1 y2 y3 y4
      match monthTok2 a b, tok1 c with
      | some m, some dd => mkValidDate y m dd
      | _, _ => do
          let m ← tok1 a
          let dd ← dayTok2 b c
          mkValidDate y m dd
  | [y1, y2, y3, y4, a, b] => do
      let y ← year4 y1 y2 y3 y4
      let m ← tok1 a
      let dd ← tok1 b
      mkValidDate y m dd
  | _ => none

/-- All characters of `l` are decimal digits. -/
def AllDigits (l : List Char) : Prop := ∀ c ∈ l, c.isDigit = true

/-- Numeric value of a digit string (most significant digit first). -/
def digitsToNat (l : List Char) : Nat := l.foldl (fun n c => 10 * n + (c.toNat - 48)) 0

/-- A one- or two-digit numeric token with value `v` in range `1..hi`,
as accepted by the `%m` (`hi = 12`) and `%d` (`hi = 31`) directives. -/
def NumTok (l : List Char) (v hi : Nat) : Prop :=
  (1 ≤ l.length ∧ l.length ≤ 2) ∧ AllDigits l ∧ digitsToNat l = v ∧ 1 ≤ v ∧ v ≤ hi

/-- Declarative characterization of the strings accepted by
`strptime(_, "%Y%m%d")`: a four-digit year followed by a one- or two-digit
month and day token forming a valid calendar date. -/
def IsStrptimeYMD (s : List Char) (dt : Date) : Prop :=
  ∃ ys ms ds, s = ys ++ ms ++ ds ∧ ys.length = 4 ∧ AllDigits ys ∧
    digitsToNat ys = dt.year ∧ NumTok ms dt.month 12 ∧ NumTok ds dt.day 31 ∧ ValidDate dt

/-! ## Filename handling (`extract_date_from_filename`) -/

/-- `os.path.basename` on a POSIX path: the part after the last slash. -/
def basename (s : List Char) : List Char :=
  (s.reverse.takeWhile (fun c => c ≠ '/')).reverse

/-- Python `str.replace(pat, rep)`: replace every occurrence of `pat`,
scanning left to right, non-overlapping.  The fuel argument (instantiated
with the string length) only serves structural termination; each step
consumes at least one character, so it is never exhausted. -/
def replaceAllAux (pat rep : List Char) : Nat → List Char → List Char
  | _, [] => []
  | 0, s => s
  | fuel + 1, c :: rest =>
      if pat.isPrefixOf (c :: rest) then
        rep ++ replaceAllAux pat rep fuel ((c :: rest).drop pat.length)
      else
        c :: replaceAllAux pat rep fuel rest

/-- `s.replace(pat, "")` as used in `extract_date_from_filename`. -/
def pyReplace (s pat : List Char) : List Char :=
  replaceAllAux pat [] s.length s

/-- The literal `"deepstatemap_data_"` removed from filenames. -/
def dataPat : List Char := ("deepstatemap_data_" : String).data

/-- The literal `".geojson"` removed from filenames. -/
def geojsonPat : List Char := (".geojson" : String).data

/-- The `date_str` computed by `extract_date_from_filename`: basename with
every occurrence of `"deepstatemap_data_"` and then `".geojson"` deleted. -/
def cleanedName (filename : List Char) : List Char :=
  pyReplace (pyReplace (basename filename) dataPat) geojsonPat

/-- `extract_date_from_filename`: strip the two literals from the basename
and parse the remainder with `strptime(_, "%Y%m%d")`; `None` when parsing
raises `ValueError`. -/
def extract_date_from_filename (filename : List Char) : Option Date :=
  strptimeYMD (cleanedName filename)

/-- `file.endswith(".geojson")`, the filter applied by the aggregation scan. -/
def isGeojsonName (s : String) : Bool :=
  geojsonPat.isSuffixOf s.data

/-! ## Name normalization (`extract_first_part`) -/

/-- Python `name.split('///')`: split on each non-overlapping occurrence of
the three-slash delimiter, scanning left to right.  Always returns at least
one segment. -/
def pySplit3 : List Char → List (List Char)
  | [] => [[]]
  | '/' :: '/' :: '/' :: rest => [] :: pySplit3 rest
  | c :: rest =>
    match pySplit3 rest with
    | [] => [[c]]
    | h :: t => (c :: h) :: t

/-- Whether the string contains the delimiter `'///'` (at least one split point). -/
def hasDelim : List Char → Bool
  | [] => false
  | '/' :: '/' :: '/' :: _ => true
  | _ :: rest => hasDelim rest

/-- Whitespace characters stripped by Python `str.strip()` (ASCII subset:
space, tab, newline, carriage return, vertical tab, form feed). -/
def pyWhitespace : List Char := [' ', '\t', '\n', '\r', Char.ofNat 11, Char.ofNat 12]

/-- Python `str.strip()`: drop leading and trailing whitespace. -/
def pyStrip (s : List Char) : List Char :=
  ((s.dropWhile (fun c => pyWhitespace.contains c)).reverse.dropWhile
      (fun c => pyWhitespace.contains c)).reverse

/-- `extract_first_part(name, part)`: `name.split('///')[part].strip()`.
The out-of-range index access raises `IndexError`, modelled as `none`. -/
def extract_first_part (name : List Char) (part : Nat) : Option (List Char) :=
  ((pySplit3 name).get? part).map pyStrip

/-! ## Geometry model

Coordinates are modelled as exact rationals.  A shapely `Polygon` is an
exterior shell plus interior holes; rings are stored without the repeated
closing point.  The script's runtime `isinstance` dispatch on
`Polygon`/`MultiPolygon` becomes a closed tagged variant with an `other`
constructor for every non-polygonal geometry kind. -/

/-- A 2D point. -/
abbrev Pt := ℚ × ℚ

/-- A polygon: exterior shell and interior holes (rings without the
repeated closing point). -/
structure Poly where
  shell : List Pt
  holes : List (List Pt)
deriving DecidableEq

/-- A geometry value as dispatched on by `isinstance` checks in the script. -/
inductive Geometry where
  | polygon (p : Poly)
  | multiPolygon (ps : List Poly)
  | other
deriving DecidableEq

/-- Whether a geometry is a strict single `Polygon`
(`isinstance(x, Polygon)`). -/
def isPolygonGeom : Geometry → Bool
  | .polygon _ => true
  | _ => false

/-! ### Planar centroid, area, WKT (shapely `centroid`, `area`, `wkt`) -/

/-- Cross product term `x_i * y_j - x_j * y_i` of the shoelace formula. -/
def cross (p q : Pt) : ℚ := p.1 * q.2 - q.1 * p.2

/-- Twice the signed area of a ring (shoelace sum over cyclically
consecutive vertex pairs). -/
def ringA2 (r : List Pt) : ℚ :=
  ((r.zip (r.rotate 1)).map (fun q => cross q.1 q.2)).sum

/-- Six times the signed-area-weighted x-moment of a ring. -/
def ringCx6 (r : List Pt) : ℚ :=
  ((r.zip (r.rotate 1)).map (fun q => (q.1.1 + q.2.1) * cross q.1 q.2)).sum

/-- Six times the signed-area-weighted y-moment of a ring. -/
def ringCy6 (r : List Pt) : ℚ :=
  ((r.zip (r.rotate 1)).map (fun q => (q.1.2 + q.2.2) * cross q.1 q.2)).sum

/-- Planar (unsigned) area of a polygon: shell area minus hole areas. -/
def polyArea (p : Poly) : ℚ :=
  |ringA2 p.shell| / 2 - ((p.holes.map (fun h => |ringA2 h| / 2)).sum)

/-- Orientation sign of a ring, used to normalize moments. -/
def ringSign (r : List Pt) : ℚ := if ringA2 r < 0 then -1 else 1

/-- Planar centroid of a polygon (x = longitude, y = latitude): the
standard area-weighted first moment, holes subtracted.  On a degenerate
polygon of zero area the rational division yields zero (shapely would
yield an empty point). -/
def polyCentroid (p : Poly) : Pt :=
  let a2 := |ringA2 p.shell| - ((p.holes.map (fun h => |ringA2 h|)).sum)
  let nx := ringSign p.shell * ringCx6 p.shell
      - ((p.holes.map (fun h => ringSign h * ringCx6 h)).sum)
  let ny := ringSign p.shell * ringCy6 p.shell
      - ((p.holes.map (fun h => ringSign h * ringCy6 h)).sum)
  (nx / (3 * a2), ny / (3 * a2))

/-- One coordinate pair in WKT ("x y"), rationals rendered exactly. -/
def ptWkt (p : Pt) : String := toString p.1 ++ " " ++ toString p.2

/-- A ring in WKT, with the first point repeated at the end. -/
def ringWkt (r : List Pt) : String :=
  match r with
  | [] => "()"
  | a :: _ => "(" ++ String.intercalate ", " ((r ++ [a]).map ptWkt) ++ ")"

/-- WKT serialization of a polygon (`polygon.wkt`). -/
def wktOfPoly (p : Poly) : String :=
  "POLYGON (" ++ String.intercalate ", " ((p.shell :: p.holes).map ringWkt) ++ ")"

/-! ## Feature normalizer (`process_data`) -/

/-- A raw coordinate tuple of arbitrary dimensionality (GeoJSON allows
`[x, y]`, `[x, y, z]`, ...). -/
abbrev Coord := List ℚ

/-- A raw GeoJSON-like geometry as accepted by `shapely.geometry.shape`. -/
inductive RawGeometry where
  | point (c : Coord)
  | lineString (cs : List Coord)
  | polygon (rings : List (List Coord))
  | multiPolygon (polys : List (List (List Coord)))
deriving DecidableEq

/-- Truncation of one coordinate tuple to its first two entries, as
performed by `wkt.dumps(_, output_dimension=2)`. -/
def truncate2 (c : Coord) : Coord := c.take 2

/-- The geometry normalization
`wkt.loads(wkt.dumps(shape(geom), output_dimension=2))`: every coordinate
tuple is truncated to its X and Y entries. -/
def flattenTo2D : RawGeometry → RawGeometry
  | .point c => .point (truncate2 c)
  | .lineString cs => .lineString (cs.map truncate2)
  | .polygon rs => .polygon (rs.map (List.map truncate2))
  | .multiPolygon ps => .multiPolygon (ps.map (List.map (List.map truncate2)))

/-- All coordinate tuples occurring in a raw geometry, in order. -/
def coordsOf : RawGeometry → List Coord
  | .point c => [c]
  | .lineString cs => cs
  | .polygon rs => rs.flatten
  | .multiPolygon ps => (ps.map List.flatten).flatten

/-- One raw record from the API payload: `properties.name` and `geometry`. -/
structure RawFeature where
  name : String
  geometry : RawGeometry
deriving DecidableEq

/-- A normalized feature: cleaned label plus flattened geometry. -/
structure NormFeature where
  name : String
  geometry : RawGeometry
deriving DecidableEq

/-- `process_data`: build the flattened-geometry list, then rewrite each
name via `extract_first_part(name, part=1)`.  A name with fewer than two
`'///'` segments raises `IndexError`, modelled as `none` for the run. -/
def process_data (fs : List RawFeature) : Option (List NormFeature) :=
  (fs.map (fun f => (f.name, flattenTo2D f.geometry))).mapM
    (fun x => (extract_first_part x.1.data 1).map
      (fun nm => { name := String.mk nm, geometry := x.2 }))

/-! ## Polygon filter & merger (`create_geodataframe`) -/

/-- A normalized feature as a GeoDataFrame row: cleaned name and 2D geometry. -/
structure Feature where
  name : String
  geometry : Geometry
deriving DecidableEq

/-- The fixed category filter set
`['CADR and CALR', 'Occupied', 'Occupied Crimea']`. -/
def categoryFilterSet : List String :=
  ["CADR and CALR", "Occupied", "Occupied Crimea"]

/-- The mask `raw_gdf.geometry.apply(lambda x: isinstance(x, Polygon))`:
keep only strict single polygons. -/
def polygon_gdf (l : List Feature) : List Feature :=
  l.filter (fun f => isPolygonGeom f.geometry)

/-- `polygon_gdf[polygon_gdf['name'].isin([...])]`: among the strict
polygons, keep those whose name is in the category filter set. -/
def filtered_gdf (l : List Feature) : List Feature :=
  (polygon_gdf l).filter (fun f => categoryFilterSet.contains f.name)

/-- The polygons handed to the union (every retained feature is a strict
polygon by construction). -/
def unionInput (l : List Feature) : List Poly :=
  (filtered_gdf l).filterMap
    (fun f => match f.geometry with
      | .polygon p => some p
      | _ => none)

/-- The merged region produced by `unary_union`: empty, one polygon, or a
multipolygon. -/
inductive MergedGeom where
  | empty
  | poly (p : Poly)
  | multi (ps : List Poly)
deriving DecidableEq

/-- Modelled from the spec: `filtered_gdf.geometry.unary_union` is a
collaborator operation (geopandas/shapely, outside `src/`).  The union of
an empty selection is an empty geometry; a non-empty selection is kept as
the collection of its input polygons — the geometric merging of
overlapping shapes is not modelled, as no claim depends on the shape of a
non-empty union. -/
def unary_union : List Poly → MergedGeom
  | [] => .empty
  | [p] => .poly p
  | ps => .multi ps

/-- Modelled from the spec: the de-artifacting
`buffer(eps, 1, mitre).buffer(-eps, 1, mitre)` round-trip is a
collaborator operation (GEOS, outside `src/`).  Buffering an empty
geometry remains empty without erroring; the floating-point offsetting of
non-empty geometry is not modelled (kept as the identity placeholder,
used by no claim). -/
def bufferRoundtrip : MergedGeom → MergedGeom
  | .empty => .empty
  | g => g

/-- `create_geodataframe`: strict-polygon mask, category filter, union,
buffer round-trip. -/
def create_geodataframe (l : List Feature) : MergedGeom :=
  bufferRoundtrip (unary_union (unionInput l))

/-! ## Snapshot artifacts and the aggregated table -/

/-- One row of a snapshot artifact as read back by `gpd.read_file`:
a geometry and the optional value of a `name` column. -/
structure ArtRow where
  geometry : Geometry
  name : Option String
deriving DecidableEq

/-- A snapshot artifact file: its filename, whether the stored table has a
`name` column, and its rows. -/
structure ArtifactFile where
  fname : String
  hasNameCol : Bool
  rows : List ArtRow
deriving DecidableEq

/-- One row of the aggregated CSV.  `name` is `none` when the source
artifact has no `name` column or the value is null. -/
structure AggRow where
  date : Date
  centroid_lat : ℚ
  centroid_lon : ℚ
  area : ℚ
  geometry_wkt : String
  name : Option String
deriving DecidableEq

/-- The aggregated row built from one constituent polygon in
`process_geojson`: centroid (lat = y, lon = x), planar area, WKT, and the
`name` value when the column exists. -/
def mkRowData (d : Date) (hasName : Bool) (nm : Option String) (p : Poly) : AggRow :=
  { date := d
    centroid_lat := (polyCentroid p).2
    centroid_lon := (polyCentroid p).1
    area := polyArea p
    geometry_wkt := wktOfPoly p
    name := if hasName then nm else none }

/-- The rows emitted for one artifact row: non-polygonal geometry is
skipped; a multipolygon is decomposed into its constituent polygons
(`geom.geoms`), one aggregated row each. -/
def rowsForGeom (d : Date) (hasName : Bool) (nm : Option String) : Geometry → List AggRow
  | .polygon p => [mkRowData d hasName nm p]
  | .multiPolygon ps => ps.map (mkRowData d hasName nm)
  | .other => []

/-- `process_geojson`: empty result when the filename date does not parse
(the file content is not read in that case); otherwise one batch of rows
per qualifying geometry row. -/
def process_geojson (file : ArtifactFile) : List AggRow :=
  match extract_date_from_filename file.fname.data with
  | none => []
  | some d => (file.rows.map (fun r => rowsForGeom d file.hasNameCol r.name r.geometry)).flatten

/-! ## Aggregation engine (`update_aggregated_csv`) -/

/-- The state touched by one aggregation run: the aggregated CSV
(`none` when the file does not exist) and the artifact files of the output
directory, in sorted filename order. -/
structure FileSystem where
  csv : Option (List AggRow)
  artifacts : List ArtifactFile
deriving DecidableEq

/-- The dates present in a table (`existing_df["date"].dt.date`). -/
def tableDates (t : List AggRow) : List Date := t.map (fun r => r.date)

/-- `existing_dates`: the dates of the existing CSV, empty when the CSV
file does not exist. -/
def existingDates (fs : FileSystem) : List Date :=
  match fs.csv with
  | none => []
  | some t => tableDates t

/-- The skip test of the scan loop: `file_date in existing_dates`
(a `None` date is never a member of a set of dates). -/
def dateSkip (dates : List Date) (f : ArtifactFile) : Bool :=
  match extract_date_from_filename f.fname.data with
  | some d => decide (d ∈ dates)
  | none => false

/-- The non-skipped `.geojson` files of the scan, in order. -/
def candidateFiles (fs : FileSystem) : List ArtifactFile :=
  (fs.artifacts.filter (fun f => isGeojsonName f.fname)).filter
    (fun f => !dateSkip (existingDates fs) f)

/-- `new_dataframes`: the non-empty row batches produced for the
non-skipped files. -/
def newBatches (fs : FileSystem) : List (List AggRow) :=
  ((candidateFiles fs).map process_geojson).filter (fun b => !b.isEmpty)

/-- The artifact files whose content is read (`gpd.read_file`) during one
run: non-skipped `.geojson` files whose filename date parses
(`process_geojson` returns before reading when the date is `None`). -/
def readArtifacts (fs : FileSystem) : List String :=
  ((candidateFiles fs).filter
      (fun f => (extract_date_from_filename f.fname.data).isSome)).map
    (fun f => f.fname)

/-- How the run reports: CSV rewritten with new rows; "No new data to add."
(existing CSV untouched); or the first-ever-run warning
"No data found to create initial CSV.". -/
inductive AggOutcome where
  | updated
  | noNewData
  | noInitialData
deriving DecidableEq

/-- `update_aggregated_csv`: when at least one non-empty batch exists,
concatenate the batches onto the existing rows and write the CSV;
otherwise leave the file system untouched and report a no-op (or the
initial-run warning when no CSV exists). -/
def update_aggregated_csv (fs : FileSystem) : FileSystem × AggOutcome :=
  if (newBatches fs).isEmpty then
    (fs, match fs.csv with
      | none => .noInitialData
      | some _ => .noNewData)
  else
    ({ fs with
        csv := some ((match fs.csv with
          | none => []
          | some t => t) ++ (newBatches fs).flatten) },
      .updated)

/-- Iterated aggregation runs over an unchanged artifact set. -/
def runAgg : Nat → FileSystem → FileSystem
  | 0, fs => fs
  | n + 1, fs => runAgg n (update_aggregated_csv fs).1

/-! ## Snapshot writer -/

/-- Modelled from the spec for the Snapshot Writer collaborator
(`gdf.to_file`, outside `src/`): the merged geometry is serialized as one
dated artifact; an empty merged geometry round-trips as an artifact with
no qualifying geometry rows (a valid "no coverage" snapshot). -/
def writeArtifact (fname : String) (g : MergedGeom) : ArtifactFile :=
  match g with
  | .empty => { fname := fname, hasNameCol := false, rows := [] }
  | .poly p => { fname := fname, hasNameCol := false, rows := [{ geometry := .polygon p, name := none }] }
  | .multi ps => { fname := fname, hasNameCol := false, rows := [{ geometry := .multiPolygon ps, name := none }] }

/-! ## Concrete fixtures used by witnesses -/

/-- A sample date, 2024-01-02. -/
def d0 : Date := ⟨2024, 1, 2⟩

/-- A unit square polygon at the origin. -/
def sqUnit : Poly := ⟨[(0, 0), (1, 0), (1, 1), (0, 1)], []⟩

/-- A unit square polygon shifted by 2 in x. -/
def sqB : Poly := ⟨[(2, 0), (3, 0), (3, 1), (2, 1)], []⟩

/-- A unit square polygon shifted by 4 in x. -/
def sqC : Poly := ⟨[(4, 0), (5, 0), (5, 1), (4, 1)], []⟩

/-- Three disjoint unit squares: a sample multipolygon decomposition input. -/
def ps3 : List Poly := [sqUnit, sqB, sqC]

/-- A sample artifact filename for date 2024-01-02. -/
def fn0 : String := "deepstatemap_data_20240102.geojson"

/-- An existing aggregated row for date 2024-01-02. -/
def row0 : AggRow :=
  { date := d0, centroid_lat := 0, centroid_lon := 0, area := 0, geometry_wkt := "", name := none }

/-- A sample artifact for date 2024-01-02 holding one polygon row. -/
def a0 : ArtifactFile := { fname := fn0, hasNameCol := false, rows := [⟨.polygon sqUnit, none⟩] }

/-- A file system whose aggregated table already covers 2024-01-02 and whose
output directory holds an artifact for that same date. -/
def fs0 : FileSystem := { csv := some [row0], artifacts := [a0] }

/-- A feature list in which zero features match the category filter set. -/
def l5 : List Feature := [⟨"Other", .polygon sqUnit⟩, ⟨"Occupied", .other⟩]

/-- The spec's filter example: two matching strict polygons, one
non-matching name, one matching name on a multipolygon. -/
def l4 : List Feature :=
  [⟨"CADR and CALR", .polygon sqUnit⟩, ⟨"Occupied", .polygon sqB⟩,
   ⟨"Other", .polygon sqC⟩, ⟨"Occupied", .multiPolygon [sqUnit, sqB]⟩]

/-- A sample artifact filename for date 2024-01-05. -/
def fn5 : String := "deepstatemap_data_20240105.geojson"

/-- A 3D raw polygon with constant Z = 100 on every vertex. -/
def g3d : RawGeometry :=
  .polygon [[[30, 50, 100], [31, 50, 100], [31, 51, 100], [30, 50, 100]]]

/-- One 3D coordinate tuple of `g3d`. -/
def c0 : Coord := [30, 50, 100]

/-- A composite label with one delimiter and surrounding whitespace. -/
def name6 : String := "A/// Occupied "

/-- A sample artifact filename for date 2024-01-09. -/
def fn9 : String := "deepstatemap_data_20240109.geojson"

/-- An artifact whose only row is non-polygonal: it yields zero aggregated
rows. -/
def a9 : ArtifactFile := { fname := fn9, hasNameCol := false, rows := [⟨.other, none⟩] }

/-- A file system with no CSV yet and one zero-row artifact. -/
def fs9 : FileSystem := { csv := none, artifacts := [a9] }

/-- The date 2024-01-09 of the zero-row artifact fixture. -/
def d9 : Date := ⟨2024, 1, 9⟩

/-- A filename whose cleaned remainder `"202111"` is six characters long. -/
def fnX : String := "deepstatemap_data_202111.geojson"

/-- The date `strptime` actually parses from `"202111"`. -/
def dtX : Date := ⟨2021, 1, 1⟩

/-! ## Helper lemmas -/

/-- Flattening commutes with coordinate collection: the flattened
geometry's coordinate tuples are the originals truncated to X and Y. -/
theorem coordsOf_flattenTo2D (g : RawGeometry) :
    coordsOf (flattenTo2D g) = (coordsOf g).map truncate2 := by
  cases g <;>
    simp [coordsOf, flattenTo2D, List.map_flatten, List.map_map, Function.comp_def]

/-- Truncation to two entries preserves the first two entries. -/
theorem truncate2_getElem (c : Coord) :
    (truncate2 c).get? 0 = c.get? 0 ∧ (truncate2 c).get? 1 = c.get? 1 := by
  rcases c with _ | ⟨a, _ | ⟨b, rest⟩⟩ <;> simp [truncate2]

/-- A decimal digit character has code point between 48 and 57. -/
theorem digit_bounds (c : Char) (h : c.isDigit = true) :
    48 ≤ c.toNat ∧ c.toNat ≤ 57 := by
  simp [Char.isDigit, UInt32.le_def, BitVec.le_def] at h
  simp [Char.toNat, UInt32.toNat]
  omega

/-- Characterization of `digitVal`. -/
theorem digitVal_eq_some (c : Char) (n : Nat) :
    digitVal c = some n ↔ c.isDigit = true ∧ c.toNat - 48 = n := by
  simp [digitVal]

/-- Characterization of the `%Y` group: four digits whose value is the
year. -/
theorem year4_eq_some (y1 y2 y3 y4 : Char) (y : Nat) :
    year4 y1 y2 y3 y4 = some y ↔
      AllDigits [y1, y2, y3, y4] ∧ digitsToNat [y1, y2, y3, y4] = y := by
  simp [year4, Option.bind_eq_some, digitVal_eq_some, AllDigits, digitsToNat]
  constructor
  · rintro ⟨x, ⟨h1, rfl⟩, z, ⟨h2, rfl⟩, w, ⟨h3, rfl⟩, v, ⟨h4, rfl⟩, rfl⟩
    refine ⟨⟨h1, h2, h3, h4⟩, by ring⟩
  · rintro ⟨⟨h1, h2, h3, h4⟩, rfl⟩
    exact ⟨_, ⟨h1, rfl⟩, _, ⟨h2, rfl⟩, _, ⟨h3, rfl⟩, _, ⟨h4, rfl⟩, by ring⟩

/-- Characterization of the two-digit month alternatives. -/
theorem monthTok2_eq_some (a b : Char) (m : Nat) :
    monthTok2 a b = some m ↔ NumTok [a, b] m 12 := by
  simp [monthTok2, Option.bind_eq_some, Option.ite_none_right_eq_some,
    digitVal_eq_some, NumTok, AllDigits, digitsToNat]
  constructor
  · rintro ⟨x, ⟨h1, rfl⟩, y, ⟨h2, rfl⟩, h3, rfl⟩
    refine ⟨⟨h1, h2⟩, by omega, by omega, by omega⟩
  · rintro ⟨⟨h1, h2⟩, h3, h4, h5⟩
    exact ⟨_, ⟨h1, rfl⟩, _, ⟨h2, rfl⟩, by omega, by omega⟩

/-- Characterization of the two-digit day alternatives. -/
theorem dayTok2_eq_some (a b : Char) (d : Nat) :
    dayTok2 a b = some d ↔ NumTok [a, b] d 31 := by
  simp [dayTok2, Option.bind_eq_some, Option.ite_none_right_eq_some,
    digitVal_eq_some, NumTok, AllDigits, digitsToNat]
  constructor
  · rintro ⟨x, ⟨h1, rfl⟩, y, ⟨h2, rfl⟩, h3, rfl⟩
    refine ⟨⟨h1, h2⟩, by omega, by omega, by omega⟩
  · rintro ⟨⟨h1, h2⟩, h3, h4, h5⟩
    exact ⟨_, ⟨h1, rfl⟩, _, ⟨h2, rfl⟩, by omega, by omega⟩

/-- Characterization of the one-digit alternative. -/
theorem tok1_eq_some (a : Char) (m : Nat) :
    tok1 a = some m ↔ a.isDigit = true ∧ a.toNat - 48 = m ∧ 1 ≤ m := by
  simp [tok1, Option.bind_eq_some, Option.ite_none_right_eq_some, digitVal_eq_some]
  aesop

/-- A single digit with positive value is a numeric token for any bound of
at least 9. -/
theorem numTok_single (a : Char) (v hi : Nat) (h1 : a.isDigit = true)
    (h2 : a.toNat - 48 = v) (h3 : 1 ≤ v) (h4 : 9 ≤ hi) : NumTok [a] v hi := by
  have hb := digit_bounds a h1
  refine ⟨by simp, ?_, by simp [digitsToNat, h2], h3, by omega⟩
  intro c hc
  simp at hc
  subst hc
  exact h1

/-- Every month has at least 28 days. -/
theorem daysInMonth_ge (y m : Nat) : 28 ≤ daysInMonth y m := by
  simp only [daysInMonth]
  split
  · split <;> omega
  · split <;> omega

/-- Characterization of the `datetime.date` constructor. -/
theorem mkValidDate_eq_some (y m d : Nat) (dt : Date) :
    mkValidDate y m d = some dt ↔
      (1 ≤ y ∧ 1 ≤ m ∧ m ≤ 12 ∧ 1 ≤ d ∧ d ≤ daysInMonth y m) ∧ dt = ⟨y, m, d⟩ := by
  simp only [mkValidDate]
  split
  · simp_all [eq_comm]
  · simp_all

/-- When the `datetime.date` constructor succeeds. -/
theorem mkValidDate_isSome (y m d : Nat) :
    (mkValidDate y m d).isSome = true ↔
      1 ≤ y ∧ 1 ≤ m ∧ m ≤ 12 ∧ 1 ≤ d ∧ d ≤ daysInMonth y m := by
  simp only [mkValidDate]
  split <;> simp_all

/-- Soundness of the `strptime` model: every parsed date satisfies the
declarative year/month/day-token characterization. -/
theorem strptimeYMD_sound (s : List Char) (dt : Date) (h : strptimeYMD s = some dt) :
    IsStrptimeYMD s dt := by
  rcases s with _ | ⟨y1, s⟩
  · simp [strptimeYMD] at h
  rcases s with _ | ⟨y2, s⟩
  · simp [strptimeYMD] at h
  rcases s with _ | ⟨y3, s⟩
  · simp [strptimeYMD] at h
  rcases s with _ | ⟨y4, s⟩
  · simp [strptimeYMD] at h
  rcases s with _ | ⟨a, s⟩
  · simp [strptimeYMD] at h
  rcases s with _ | ⟨b, s⟩
  · simp [strptimeYMD] at h
  rcases s with _ | ⟨c, s⟩
  · simp [strptimeYMD, Option.bind_eq_some, year4_eq_some, tok1_eq_some,
      mkValidDate_eq_some] at h
    obtain ⟨y, ⟨hyd, hyv⟩, m, ⟨ha1, ha2, ha3⟩, dd, ⟨hb1, hb2, hb3⟩, hcond, rfl⟩ := h
    exact ⟨[y1, y2, y3, y4], [a], [b], rfl, rfl, hyd, hyv,
      numTok_single a m 12 ha1 ha2 ha3 (by omega),
      numTok_single b dd 31 hb1 hb2 hb3 (by omega), hcond⟩
  rcases s with _ | ⟨d, s⟩
  · rcases hm2 : monthTok2 a b with _ | m2 <;> rcases hc1 : tok1 c with _ | d1
    · simp [strptimeYMD, hm2, hc1, Option.bind_eq_some, year4_eq_some, tok1_eq_some,
        dayTok2_eq_some, mkValidDate_eq_some] at h
      obtain ⟨y, ⟨hyd, hyv⟩, m, ⟨ha1, ha2, ha3⟩, dd, hday, hcond, rfl⟩ := h
      exact ⟨[y1, y2, y3, y4], [a], [b, c], rfl, rfl, hyd, hyv,
        numTok_single a m 12 ha1 ha2 ha3 (by omega), hday, hcond⟩
    · simp [strptimeYMD, hm2, hc1, Option.bind_eq_some, year4_eq_some, tok1_eq_some,
        dayTok2_eq_some, mkValidDate_eq_some] at h
      obtain ⟨y, ⟨hyd, hyv⟩, m, ⟨ha1, ha2, ha3⟩, dd, hday, hcond, rfl⟩ := h
      exact ⟨[y1, y2, y3, y4], [a], [b, c], rfl, rfl, hyd, hyv,
        numTok_single a m 12 ha1 ha2 ha3 (by omega), hday, hcond⟩
    · simp [strptimeYMD, hm2, hc1, Option.bind_eq_some, year4_eq_some, tok1_eq_some,
        dayTok2_eq_some, mkValidDate_eq_some] at h
      obtain ⟨y, ⟨hyd, hyv⟩, m, ⟨ha1, ha2, ha3⟩, dd, hday, hcond, rfl⟩ := h
      exact ⟨[y1, y2, y3, y4], [a], [b, c], rfl, rfl, hyd, hyv,
        numTok_single a m 12 ha1 ha2 ha3 (by omega), hday, hcond⟩
    · simp [strptimeYMD, hm2, hc1, Option.bind_eq_some, year4_eq_some,
        mkValidDate_eq_some] at h
      obtain ⟨y, ⟨hyd, hyv⟩, hcond, rfl⟩ := h
      have hm := monthTok2_eq_some a b m2 |>.mp hm2
      have hd1 := tok1_eq_some c d1 |>.mp hc1
      exact ⟨[y1, y2, y3, y4], [a, b], [c], rfl, rfl, hyd, hyv, hm,
        numTok_single c d1 31 hd1.1 hd1.2.1 hd1.2.2 (by omega), hcond⟩
  rcases s with _ | ⟨e, s⟩
  · simp [strptimeYMD, Option.bind_eq_some, year4_eq_some, monthTok2_eq_some,
      dayTok2_eq_some, mkValidDate_eq_some] at h
    obtain ⟨y, ⟨hyd, hyv⟩, m, hmt, dd, hdt, hcond, rfl⟩ := h
    exact ⟨[y1, y2, y3, y4], [a, b], [c, d], rfl, rfl, hyd, hyv, hmt, hdt, hcond⟩
  · simp [strptimeYMD] at h

/-- The fields of a single-character numeric token. -/
theorem numTok_single_fields (a : Char) (v hi : Nat) (h : NumTok [a] v hi) :
    a.isDigit = true ∧ a.toNat - 48 = v ∧ 1 ≤ v := by
  obtain ⟨-, hdig, hval, hge, -⟩ := h
  refine ⟨hdig a (by simp), ?_, hge⟩
  simpa [digitsToNat] using hval

/-- Completeness of the `strptime` model: every string satisfying the
declarative characterization parses to some date (possibly a different one
when the regex backtracker prefers another split). -/
theorem strptimeYMD_complete (s : List Char) (dt : Date) (h : IsStrptimeYMD s dt) :
    (strptimeYMD s).isSome = true := by
  obtain ⟨ys, ms, ds, rfl, hylen, hydig, hyval, hm, hd, hvd⟩ := h
  rcases ys with _ | ⟨y1, _ | ⟨y2, _ | ⟨y3, _ | ⟨y4, t⟩⟩⟩⟩ <;> simp at hylen
  subst hylen
  have hyr : year4 y1 y2 y3 y4 = some dt.year :=
    (year4_eq_some y1 y2 y3 y4 dt.year).mpr ⟨hydig, hyval⟩
  obtain ⟨⟨hmlen1, hmlen2⟩, -, -, -, -⟩ := id hm
  obtain ⟨⟨hdlen1, hdlen2⟩, -, -, -, -⟩ := id hd
  obtain ⟨hvy, hvm1, hvm2, hvd1, hvd2⟩ := hvd
  rcases ms with _ | ⟨m1, _ | ⟨m2, _ | ⟨m3, tm⟩⟩⟩ <;> simp at hmlen1 hmlen2
  all_goals rcases ds with _ | ⟨d1, _ | ⟨d2, _ | ⟨d3, td⟩⟩⟩ <;> simp at hdlen1 hdlen2
  · obtain ⟨hq1, hq2, hq3⟩ := numTok_single_fields m1 dt.month 12 hm
    obtain ⟨hr1, hr2, hr3⟩ := numTok_single_fields d1 dt.day 31 hd
    have hmt : tok1 m1 = some dt.month := (tok1_eq_some m1 dt.month).mpr ⟨hq1, hq2, hq3⟩
    have hdt : tok1 d1 = some dt.day := (tok1_eq_some d1 dt.day).mpr ⟨hr1, hr2, hr3⟩
    simp [strptimeYMD, hyr, hmt, hdt, mkValidDate_isSome]
    exact ⟨hvy, hvm1, hvm2, hvd1, hvd2⟩
  · obtain ⟨hq1, hq2, hq3⟩ := numTok_single_fields m1 dt.month 12 hm
    have hmt : tok1 m1 = some dt.month := (tok1_eq_some m1 dt.month).mpr ⟨hq1, hq2, hq3⟩
    have hdd : dayTok2 d1 d2 = some dt.day := (dayTok2_eq_some d1 d2 dt.day).mpr hd
    rcases hx : monthTok2 m1 d1 with _ | m2 <;> rcases hz : tok1 d2 with _ | dd2
    · simp [strptimeYMD, hyr, hx, hz, hmt, hdd, mkValidDate_isSome]
      exact ⟨hvy, hvm1, hvm2, hvd1, hvd2⟩
    · simp [strptimeYMD, hyr, hx, hz, hmt, hdd, mkValidDate_isSome]
      exact ⟨hvy, hvm1, hvm2, hvd1, hvd2⟩
    · simp [strptimeYMD, hyr, hx, hz, hmt, hdd, mkValidDate_isSome]
      exact ⟨hvy, hvm1, hvm2, hvd1, hvd2⟩
    · have hm2b := (monthTok2_eq_some m1 d1 m2).mp hx
      have hd2b := (tok1_eq_some d2 dd2).mp hz
      have hb := digit_bounds d2 hd2b.1
      have hge := daysInMonth_ge dt.year m2
      simp [strptimeYMD, hyr, hx, hz, mkValidDate_isSome]
      exact ⟨hvy, hm2b.2.2.2.1, hm2b.2.2.2.2, hd2b.2.2, by omega⟩
  · have hmt : monthTok2 m1 m2 = some dt.month := (monthTok2_eq_some m1 m2 dt.month).mpr hm
    obtain ⟨hr1, hr2, hr3⟩ := numTok_single_fields d1 dt.day 31 hd
    have hdt : tok1 d1 = some dt.day := (tok1_eq_some d1 dt.day).mpr ⟨hr1, hr2, hr3⟩
    simp [strptimeYMD, hyr, hmt, hdt, mkValidDate_isSome]
    exact ⟨hvy, hvm1, hvm2, hvd1, hvd2⟩
  · have hmt : monthTok2 m1 m2 = some dt.month := (monthTok2_eq_some m1 m2 dt.month).mpr hm
    have hdd : dayTok2 d1 d2 = some dt.day := (dayTok2_eq_some d1 d2 dt.day).mpr hd
    simp [strptimeYMD, hyr, hmt, hdd, mkValidDate_isSome]
    exact ⟨hvy, hvm1, hvm2, hvd1, hvd2⟩

/-- The split never returns an empty list of segments. -/
theorem pySplit3_ne_nil (s : List Char) : pySplit3 s ≠ [] := by
  induction s using pySplit3.induct <;> simp_all [pySplit3]

/-- When the head position is not a split point, `hasDelim` recurses. -/
theorem hasDelim_cons (c : Char) (rest : List Char)
    (hne : ∀ r1, c = '/' → rest = '/' :: '/' :: r1 → False) :
    hasDelim (c :: rest) = hasDelim rest := by
  rw [hasDelim.eq_def]
  split <;> simp_all

/-- A string splits into at least two segments exactly when it contains the
delimiter. -/
theorem pySplit3_two_iff (s : List Char) :
    2 ≤ (pySplit3 s).length ↔ hasDelim s = true := by
  induction s using pySplit3.induct with
  | case1 => simp [pySplit3, hasDelim]
  | case2 rest ih =>
      have h := List.length_pos.mpr (pySplit3_ne_nil rest)
      simp [pySplit3, hasDelim]
      omega
  | case3 c rest hne h ih =>
      exact absurd h (pySplit3_ne_nil rest)
  | case4 c rest hne h t hsplit ih =>
      have hc : pySplit3 (c :: rest) = (c :: h) :: t := by
        rw [pySplit3.eq_def]
        split <;> simp_all
      rw [hasDelim_cons c rest hne, hc]
      rw [hsplit] at ih
      simpa using ih

/-! ## Claim theorems -/

/-- C4: for every sequence of normalized Features, the filter retains
exactly those entries whose geometry is a strict single `Polygon` and whose
name is one of `"CADR and CALR"`, `"Occupied"`, `"Occupied Crimea"`; only
those are handed to the union. -/
theorem C4_filter_correct (l : List Feature) :
    filtered_gdf l =
      l.filter (fun f => isPolygonGeom f.geometry && categoryFilterSet.contains f.name) ∧
    unionInput l =
      (l.filter (fun f => isPolygonGeom f.geometry && categoryFilterSet.contains f.name)).filterMap
        (fun f => match f.geometry with
          | .polygon p => some p
          | _ => none) := by
  constructor
  · simp [filtered_gdf, polygon_gdf, List.filter_filter, Bool.and_comm]
  · simp [unionInput, filtered_gdf, polygon_gdf, List.filter_filter, Bool.and_comm]

/-- C4 witness: of the spec's four example features, only the two strict
polygons with matching names survive the filter. -/
theorem C4_witness :
    filtered_gdf l4 = [⟨"CADR and CALR", .polygon sqUnit⟩, ⟨"Occupied", .polygon sqB⟩] ∧
    filtered_gdf l4 =
      l4.filter (fun f => isPolygonGeom f.geometry && categoryFilterSet.contains f.name) :=
  ⟨by decide, (C4_filter_correct l4).1⟩

/-- C3: an artifact row whose geometry is a multipolygon of N constituent
polygons yields exactly N aggregated rows, the i-th carrying the date and
the centroid (lon = x, lat = y), planar area and WKT of the i-th
constituent polygon. -/
theorem C3_multipolygon_decomposition (d : Date) (hn : Bool) (nm : Option String)
    (ps : List Poly) (i : Nat) (hi : i < ps.length) :
    (rowsForGeom d hn nm (Geometry.multiPolygon ps)).length = ps.length ∧
    (rowsForGeom d hn nm (Geometry.multiPolygon ps)).get? i =
      some { date := d
             centroid_lat := (polyCentroid ps[i]).2
             centroid_lon := (polyCentroid ps[i]).1
             area := polyArea ps[i]
             geometry_wkt := wktOfPoly ps[i]
             name := if hn then nm else none } := by
  refine ⟨by simp [rowsForGeom], ?_⟩
  simp [rowsForGeom, mkRowData, List.get?_eq_getElem?, List.getElem?_map,
    List.getElem?_eq_getElem hi]

/-- C3 witness: three disjoint unit squares produce exactly three rows for
the artifact's date; the third row carries the third square's centroid
(9/2, 1/2), area 1 and WKT. -/
theorem C3_witness :
    2 < ps3.length ∧
    (rowsForGeom d0 false none (Geometry.multiPolygon ps3)).length = 3 ∧
    (rowsForGeom d0 false none (Geometry.multiPolygon ps3)).get? 2 =
      some (mkRowData d0 false none sqC) ∧
    polyCentroid sqC = (9 / 2, 1 / 2) ∧ polyArea sqC = 1 ∧
    wktOfPoly sqC = "POLYGON ((4 0, 5 0, 5 1, 4 1, 4 0))" := by
  refine ⟨by decide, (C3_multipolygon_decomposition d0 false none ps3 2 (by decide)).1,
    (C3_multipolygon_decomposition d0 false none ps3 2 (by decide)).2, ?_, ?_, ?_⟩
  · norm_num [polyCentroid, ringSign, ringA2, ringCx6, ringCy6, cross, sqC, List.rotate]
  · norm_num [polyArea, ringA2, cross, sqC, List.rotate]
  · decide

/-- C7: the feature normalizer's geometry flattening produces a geometry
all of whose coordinate tuples have at most two entries, equal to the X
and Y of the corresponding input tuples. -/
theorem C7_dimension_flattening (g : RawGeometry) :
    coordsOf (flattenTo2D g) = (coordsOf g).map truncate2 ∧
    (∀ c, c ∈ coordsOf (flattenTo2D g) → c.length ≤ 2) ∧
    (∀ c, c ∈ coordsOf g →
      (truncate2 c).get? 0 = c.get? 0 ∧ (truncate2 c).get? 1 = c.get? 1) := by
  refine ⟨coordsOf_flattenTo2D g, ?_, fun c _ => truncate2_getElem c⟩
  intro c hc
  rw [coordsOf_flattenTo2D] at hc
  obtain ⟨c2, -, rfl⟩ := List.mem_map.mp hc
  simp [truncate2]

/-- C7 witness: a 3D polygon with constant Z = 100 flattens to the 2D
polygon with identical X/Y and no third coordinate. -/
theorem C7_witness :
    c0 ∈ coordsOf g3d ∧
    ((truncate2 c0).get? 0 = c0.get? 0 ∧ (truncate2 c0).get? 1 = c0.get? 1) ∧
    flattenTo2D g3d = RawGeometry.polygon [[[30, 50], [31, 50], [31, 51], [30, 50]]] :=
  ⟨by decide, (C7_dimension_flattening g3d).2.2 c0 (by decide), by decide⟩

/-- C5: when zero features match the category filter set, the union is the
empty geometry, the buffer round-trip keeps it empty, the written artifact
holds no qualifying rows, and the artifact contributes zero aggregated
rows. -/
theorem C5_empty_selection_safety (l : List Feature) (fname : String)
    (h : filtered_gdf l = []) :
    unary_union (unionInput l) = MergedGeom.empty ∧
    create_geodataframe l = MergedGeom.empty ∧
    (writeArtifact fname (create_geodataframe l)).rows = [] ∧
    process_geojson (writeArtifact fname (create_geodataframe l)) = [] := by
  have hu : unionInput l = [] := by simp [unionInput, h]
  have h1 : unary_union (unionInput l) = MergedGeom.empty := by rw [hu]; rfl
  have h2 : create_geodataframe l = MergedGeom.empty := by
    simp [create_geodataframe, h1, bufferRoundtrip]
  have h3 : (writeArtifact fname (create_geodataframe l)).rows = [] := by
    simp [h2, writeArtifact]
  refine ⟨h1, h2, h3, ?_⟩
  rw [h2]
  cases hx : extract_date_from_filename fname.data <;>
    simp [process_geojson, writeArtifact, hx]

/-- C5 witness: a run over features named outside the filter set (or
non-polygonal) yields an empty merged geometry and zero aggregated rows. -/
theorem C5_witness :
    filtered_gdf l5 = [] ∧
    process_geojson (writeArtifact fn5 (create_geodataframe l5)) = [] :=
  ⟨by decide, (C5_empty_selection_safety l5 fn5 (by decide)).2.2.2⟩

/-- C6: `extract_first_part` returns the segment at index 1 of the
`'///'`-split, stripped of surrounding whitespace, and succeeds exactly
when the name contains at least one delimiter (at least two segments);
with fewer than two segments the index access raises (`none`). -/
theorem C6_name_extraction (name : List Char) :
    extract_first_part name 1 = ((pySplit3 name).get? 1).map pyStrip ∧
    (hasDelim name = true → ((pySplit3 name).get? 1).isSome = true) ∧
    (hasDelim name = false → extract_first_part name 1 = none) := by
  refine ⟨rfl, ?_, ?_⟩
  · intro h
    have h2 := (pySplit3_two_iff name).mpr h
    rw [List.get?_eq_getElem?]
    rcases hx : (pySplit3 name)[1]? with _ | v
    · rw [List.getElem?_eq_none_iff] at hx
      omega
    · rfl
  · intro h
    have h2 : ¬ 2 ≤ (pySplit3 name).length := by
      rw [pySplit3_two_iff]
      simp [h]
    simp [extract_first_part, List.get?_eq_getElem?]
    omega

/-- C6 witness: a label with one delimiter yields the stripped second
segment; a label without a delimiter yields `none`. -/
theorem C6_witness :
    hasDelim name6.data = true ∧
    ((pySplit3 name6.data).get? 1).isSome = true ∧
    extract_first_part name6.data 1 = some (("Occupied" : String).data) ∧
    extract_first_part (("NoDelimiter" : String).data) 1 = none :=
  ⟨by decide, (C6_name_extraction name6.data).2.1 (by decide), by decide, by decide⟩

/-- C10 counterexample: for the filename
`"deepstatemap_data_202111.geojson"` the remaining string `"202111"` has
six characters — it is not a (zero-padded, eight-character) YYYYMMDD
date string — yet `extract_date_from_filename` returns the date
2021-01-01 instead of `None`, refuting the claim that a date is returned
exactly for valid YYYYMMDD remainders. -/
theorem C10_counterexample :
    extract_date_from_filename fnX.data = some dtX ∧
    (cleanedName fnX.data).length = 6 := by
  constructor <;> decide

/-- C10 (amended): `extract_date_from_filename` deletes every occurrence
of the two literals anywhere in the basename and returns a date exactly
when the remainder matches `strptime`'s `%Y%m%d` pattern: four year
digits followed by one- or two-digit month and day tokens forming a valid
calendar date (so unpadded six- and seven-character remainders also
parse); it returns `None` otherwise and never raises. -/
theorem C10_date_from_filename (f : List Char) :
    extract_date_from_filename f = strptimeYMD (cleanedName f) ∧
    (∀ dt, extract_date_from_filename f = some dt → IsStrptimeYMD (cleanedName f) dt) ∧
    ((extract_date_from_filename f).isSome = true ↔
      ∃ dt, IsStrptimeYMD (cleanedName f) dt) := by
  refine ⟨rfl, fun dt h => strptimeYMD_sound _ dt h, ?_, ?_⟩
  · intro h
    obtain ⟨dt, hdt⟩ := Option.isSome_iff_exists.mp h
    exact ⟨dt, strptimeYMD_sound _ dt hdt⟩
  · rintro ⟨dt, hdt⟩
    exact strptimeYMD_complete _ dt hdt

/-- C10 witness: a well-formed filename parses to its embedded date, which
satisfies the declarative `%Y%m%d` characterization. -/
theorem C10_witness :
    extract_date_from_filename fn0.data = some d0 ∧
    IsStrptimeYMD (cleanedName fn0.data) d0 :=
  ⟨by decide, (C10_date_from_filename fn0.data).2.1 d0 (by decide)⟩

/-! ## Aggregation engine lemmas -/

/-- Every row produced by `process_geojson` carries the artifact's
filename-embedded date. -/
theorem process_geojson_date (a : ArtifactFile) (r : AggRow) (h : r ∈ process_geojson a) :
    extract_date_from_filename a.fname.data = some r.date := by
  unfold process_geojson at h
  rcases hx : extract_date_from_filename a.fname.data with _ | d <;> rw [hx] at h
  · simp at h
  · simp only [List.mem_flatten, List.mem_map] at h
    obtain ⟨b, ⟨row, hrow, rfl⟩, hrb⟩ := h
    rcases hg : row.geometry with p | ps | _ <;> rw [hg] at hrb
    · simp [rowsForGeom, mkRowData] at hrb
      subst hrb
      rfl
    · simp only [rowsForGeom, List.mem_map] at hrb
      obtain ⟨p, hp, rfl⟩ := hrb
      rfl
    · simp [rowsForGeom] at hrb

/-- Membership in the new batches of one run. -/
theorem mem_newBatches (fs : FileSystem) (b : List AggRow) :
    b ∈ newBatches fs ↔ ∃ f, f ∈ fs.artifacts ∧ isGeojsonName f.fname = true ∧
      dateSkip (existingDates fs) f = false ∧ process_geojson f = b ∧ b ≠ [] := by
  simp only [newBatches, candidateFiles, List.mem_filter, List.mem_map,
    Bool.not_eq_true', List.isEmpty_eq_false]
  constructor
  · rintro ⟨⟨f, ⟨⟨hfa, hfg⟩, hfs⟩, rfl⟩, hne⟩
    exact ⟨f, hfa, hfg, hfs, rfl, hne⟩
  · rintro ⟨f, hfa, hfg, hfs, rfl, hne⟩
    exact ⟨⟨f, ⟨⟨hfa, hfg⟩, hfs⟩, rfl⟩, hne⟩

/-- Every row of one run's new batches has a date outside the covered set,
produced by some artifact of the directory. -/
theorem mem_newRows (fs : FileSystem) (r : AggRow)
    (h : r ∈ (newBatches fs).flatten) :
    r.date ∉ existingDates fs ∧
      ∃ f, f ∈ fs.artifacts ∧ isGeojsonName f.fname = true ∧
        extract_date_from_filename f.fname.data = some r.date ∧
        r ∈ process_geojson f := by
  rw [List.mem_flatten] at h
  obtain ⟨b, hb, hrb⟩ := h
  obtain ⟨f, hfa, hfg, hfs, rfl, -⟩ := (mem_newBatches fs b).mp hb
  have hrd := process_geojson_date f r hrb
  refine ⟨?_, f, hfa, hfg, hrd, hrb⟩
  intro hmem
  rw [dateSkip, hrd] at hfs
  simp [hmem] at hfs

/-- One aggregation run never touches the artifact directory. -/
theorem update_artifacts (fs : FileSystem) :
    (update_aggregated_csv fs).1.artifacts = fs.artifacts := by
  unfold update_aggregated_csv
  split <;> rfl

/-- Iterated runs never touch the artifact directory. -/
theorem runAgg_artifacts (n : Nat) (fs : FileSystem) :
    (runAgg n fs).artifacts = fs.artifacts := by
  induction n generalizing fs with
  | zero => rfl
  | succ n ih => rw [runAgg, ih, update_artifacts]

/-- The covered dates of one run's output: old dates plus the dates of the
new rows. -/
theorem existingDates_update (fs : FileSystem) (D : Date) :
    D ∈ existingDates (update_aggregated_csv fs).1 ↔
      D ∈ existingDates fs ∨ ∃ r ∈ (newBatches fs).flatten, r.date = D := by
  unfold update_aggregated_csv
  split
  · rename_i hemp
    rw [List.isEmpty_eq_true] at hemp
    simp [hemp]
  · rcases hc : fs.csv with _ | t <;>
      simp [existingDates, tableDates, hc, List.mem_map] <;> aesop

/-- After any run, no new batch remains: every artifact is either covered
by a date already in the table or yields no rows. -/
theorem newBatches_update (fs : FileSystem) :
    newBatches (update_aggregated_csv fs).1 = [] := by
  rw [List.eq_nil_iff_forall_not_mem]
  intro b hb
  obtain ⟨f, hfa, hfg, hfs, hpg, hne⟩ := (mem_newBatches _ b).mp hb
  rw [update_artifacts] at hfa
  obtain ⟨r, hr⟩ := List.exists_mem_of_ne_nil b hne
  have hrd : extract_date_from_filename f.fname.data = some r.date :=
    process_geojson_date f r (hpg ▸ hr)
  have hnd : r.date ∉ existingDates (update_aggregated_csv fs).1 := by
    rw [dateSkip, hrd] at hfs
    simpa using hfs
  have hskip0 : dateSkip (existingDates fs) f = false := by
    rw [dateSkip, hrd]
    simp only [decide_eq_false_iff_not]
    intro hmem
    exact hnd ((existingDates_update fs r.date).mpr (Or.inl hmem))
  have hb0 : b ∈ newBatches fs := (mem_newBatches fs b).mpr ⟨f, hfa, hfg, hskip0, hpg, hne⟩
  exact hnd ((existingDates_update fs r.date).mpr
    (Or.inr ⟨r, List.mem_flatten.mpr ⟨b, hb0, hr⟩, rfl⟩))

/-- A run with no new batches leaves the state untouched and does not
report an update. -/
theorem update_of_no_batches (fs : FileSystem) (h : newBatches fs = []) :
    (update_aggregated_csv fs).1 = fs ∧
    (update_aggregated_csv fs).2 ≠ AggOutcome.updated := by
  constructor
  · unfold update_aggregated_csv
    rw [h]
    rfl
  · unfold update_aggregated_csv
    rw [h]
    cases hc : fs.csv <;> simp

/-- A non-skipped artifact with a parseable date gets its content read. -/
theorem mem_readArtifacts (fs : FileSystem) (a : ArtifactFile) (D : Date)
    (ha : a ∈ fs.artifacts) (hgeo : isGeojsonName a.fname = true)
    (hdate : extract_date_from_filename a.fname.data = some D)
    (hD : D ∉ existingDates fs) :
    a.fname ∈ readArtifacts fs := by
  simp only [readArtifacts, candidateFiles, List.mem_map, List.mem_filter,
    Bool.not_eq_true']
  refine ⟨a, ⟨⟨⟨ha, hgeo⟩, ?_⟩, ?_⟩, rfl⟩
  · rw [dateSkip, hdate]
    simp [hD]
  · simp [hdate]

/-- One run cannot bring a date into the table when every artifact of that
date yields zero rows. -/
theorem step_D_free (fs : FileSystem) (D : Date)
    (hD : D ∉ existingDates fs)
    (hzero : ∀ b ∈ fs.artifacts, extract_date_from_filename b.fname.data = some D →
      process_geojson b = []) :
    D ∉ existingDates (update_aggregated_csv fs).1 := by
  intro hmem
  rcases (existingDates_update fs D).mp hmem with h | ⟨r, hr, hrd⟩
  · exact hD h
  · obtain ⟨-, f, hfa, -, hfd, hrpg⟩ := mem_newRows fs r hr
    rw [hrd] at hfd
    rw [hzero f hfa hfd] at hrpg
    simp at hrpg

/-! ## Aggregation claim theorems -/

/-- C1: when the table already has rows for date D and an artifact's
filename parses to D, a run adds no rows for D (the rows filtered to D are
unchanged) and does not read that artifact's content. -/
theorem C1_dedup_by_date (fs : FileSystem) (t : List AggRow) (a : ArtifactFile) (D : Date)
    (hcsv : fs.csv = some t) (hD : D ∈ tableDates t) (ha : a ∈ fs.artifacts)
    (hgeo : isGeojsonName a.fname = true)
    (hdate : extract_date_from_filename a.fname.data = some D) :
    Option.map (List.filter (fun r => decide (r.date = D))) (update_aggregated_csv fs).1.csv =
      some (t.filter (fun r => decide (r.date = D))) ∧
    a.fname ∉ readArtifacts fs := by
  have hDex : D ∈ existingDates fs := by
    simp only [existingDates, hcsv]
    exact hD
  constructor
  · have hnew : (newBatches fs).flatten.filter (fun r => decide (r.date = D)) = [] := by
      rw [List.filter_eq_nil_iff]
      intro r hr
      simp only [decide_eq_true_eq]
      intro hrd
      exact (mem_newRows fs r hr).1 (hrd ▸ hDex)
    unfold update_aggregated_csv
    split
    · simp [hcsv]
    · simp [hcsv, List.filter_append, hnew]
  · intro hmem
    simp only [readArtifacts, candidateFiles, List.mem_map, List.mem_filter,
      Bool.not_eq_true'] at hmem
    obtain ⟨f, ⟨⟨⟨hfa, hfg⟩, hfs⟩, hfsome⟩, hname⟩ := hmem
    rw [dateSkip, hname, hdate] at hfs
    simp [hDex] at hfs

/-- C1 witness: a table covering 2024-01-02 and an artifact for that date;
the run leaves the rows for that date unchanged and does not read the
file. -/
theorem C1_witness :
    fs0.csv = some [row0] ∧ d0 ∈ tableDates [row0] ∧ a0 ∈ fs0.artifacts ∧
    isGeojsonName a0.fname = true ∧
    extract_date_from_filename a0.fname.data = some d0 ∧
    (Option.map (List.filter (fun r => decide (r.date = d0)))
        (update_aggregated_csv fs0).1.csv =
      some ([row0].filter (fun r => decide (r.date = d0))) ∧
    a0.fname ∉ readArtifacts fs0) :=
  ⟨rfl, by decide, by decide, by decide, by decide,
    C1_dedup_by_date fs0 [row0] a0 d0 rfl (by decide) (by decide) (by decide) (by decide)⟩

/-- C2: a second aggregation run over the unchanged artifact set leaves the
file system identical and does not rewrite the table (its outcome is a
no-op or the initial-run warning, never an update). -/
theorem C2_idempotence (fs : FileSystem) :
    (update_aggregated_csv (update_aggregated_csv fs).1).1 = (update_aggregated_csv fs).1 ∧
    (update_aggregated_csv (update_aggregated_csv fs).1).2 ≠ AggOutcome.updated :=
  update_of_no_batches (update_aggregated_csv fs).1 (newBatches_update fs)

/-- C2 witness: the second run over the sample file system is a pure
no-op. -/
theorem C2_witness :
    (update_aggregated_csv (update_aggregated_csv fs0).1).1 = (update_aggregated_csv fs0).1 ∧
    (update_aggregated_csv (update_aggregated_csv fs0).1).2 ≠ AggOutcome.updated :=
  C2_idempotence fs0

/-- C9: an artifact whose processing yields zero rows (with no other
artifact contributing its date) never gets its date into the table, so
after any number of runs the date is still uncovered and the artifact's
content is read again by the next scan. -/
theorem C9_zero_rows_reread (fs : FileSystem) (a : ArtifactFile) (D : Date) (n : Nat)
    (ha : a ∈ fs.artifacts) (hgeo : isGeojsonName a.fname = true)
    (hdate : extract_date_from_filename a.fname.data = some D)
    (hD : D ∉ existingDates fs)
    (hzero : ∀ b ∈ fs.artifacts, extract_date_from_filename b.fname.data = some D →
      process_geojson b = []) :
    process_geojson a = [] ∧ D ∉ existingDates (runAgg n fs) ∧
      a.fname ∈ readArtifacts (runAgg n fs) := by
  induction n generalizing fs ha hD hzero with
  | zero => exact ⟨hzero a ha hdate, hD, mem_readArtifacts fs a D ha hgeo hdate hD⟩
  | succ n ih =>
      have hart := update_artifacts fs
      have hD1 := step_D_free fs D hD hzero
      have ha1 : a ∈ (update_aggregated_csv fs).1.artifacts := by rw [hart]; exact ha
      have hzero1 : ∀ b ∈ (update_aggregated_csv fs).1.artifacts,
          extract_date_from_filename b.fname.data = some D → process_geojson b = [] := by
        rw [hart]
        exact hzero
      exact ih (update_aggregated_csv fs).1 ha1 hD1 hzero1

/-- C9 witness: an artifact whose only row is non-polygonal contributes
zero rows; after two runs its date is still uncovered and its file is
still read. -/
theorem C9_witness :
    a9 ∈ fs9.artifacts ∧ isGeojsonName a9.fname = true ∧
    extract_date_from_filename a9.fname.data = some d9 ∧
    (process_geojson a9 = [] ∧ d9 ∉ existingDates (runAgg 2 fs9) ∧
      a9.fname ∈ readArtifacts (runAgg 2 fs9)) :=
  ⟨by decide, by decide, by decide,
    C9_zero_rows_reread fs9 a9 d9 2 (by decide) (by decide) (by decide) (by decide)
      (by decide)⟩

end Script
